import Mathlib

/-!
# HydroAlert (EstacaoDeMonitoramento.c): embedding and verification

A shallow embedding of the sense, evaluate, notify pipeline of
`EstacaoDeMonitoramento.c`.

Conventions of the embedding.

* `uint16_t` and `uint32_t` values are natural numbers; a store into such a
  variable reduces modulo `2^16` or `2^32` (`u16`, `u32`), and the difference of
  two tick values is taken modulo `2^32` (`tickDiff`), as C does for `uint32_t`.
* `float` values are rationals: the rate computation is evaluated in exact
  arithmetic.
* One iteration of a task's `while (true)` loop is a function from the task's
  local and global variables, and the values it reads from its environment
  (ADC samples, the tick counter, a received queue item), to their new values.
* `configTICK_RATE_HZ` (from the project's FreeRTOSConfig.h) is a parameter `hz`.
* The FreeRTOS queue calls and the pico-sdk PWM calls are library code; they are
  embedded from their documented behaviour.
-/

namespace HydroAlert

/-! ## Machine integers and ticks -/

/-- Store of a value into a `uint16_t`. -/
def u16 (x : Nat) : Nat := x % 65536

/-- Store of a value into a `uint32_t`. -/
def u32 (x : Nat) : Nat := x % 4294967296

/-- The C expression `a - b` on two `uint32_t` tick values: subtraction modulo `2^32`. -/
def tickDiff (a b : Nat) : Nat := (u32 a + 4294967296 - u32 b) % 4294967296

/-- FreeRTOS `pdMS_TO_TICKS(ms)`: `(TickType_t)(((uint64_t) ms * configTICK_RATE_HZ) / 1000)`. -/
def pdMS_TO_TICKS (hz ms : Nat) : Nat := u32 ((ms * hz) / 1000)

/-! ## Constants and data model (lines 24-66) -/

def LED_GREEN : Nat := 11
def LED_BLUE : Nat := 12
def LED_RED : Nat := 13

def WATER_LEVEL_WARNING : Nat := 50
def WATER_LEVEL_ALERT : Nat := 70
def WATER_LEVEL_CRITICAL : Nat := 85
def RAIN_VOLUME_WARNING : Nat := 60
def RAIN_VOLUME_ALERT : Nat := 80
def RAIN_VOLUME_CRITICAL : Nat := 90

/-- The enum `SystemMode`. -/
inductive SystemMode where
  | NORMAL_MODE
  | WARNING_MODE
  | ALERT_MODE
  | CRITICAL_MODE
deriving DecidableEq

open SystemMode

/-- The struct `sensor_data_t`. -/
structure sensor_data_t where
  water_level : Nat
  rain_volume : Nat
  water_rate : ℚ
  rain_rate : ℚ
  mode : SystemMode
  trend_worsening : Bool
  timestamp : Nat
deriving DecidableEq

/-- The struct `alert_control_t`. -/
structure alert_control_t where
  mode : SystemMode
  update_display : Bool
  update_matrix : Bool
  update_sound : Bool
deriving DecidableEq

/-! ## vSensorTask (lines 135-197) -/

/-- The mode assignment of `vSensorTask`, lines 181-189, as a function of the two
levels it tests. -/
def classifyMode (water_level rain_volume : Nat) : SystemMode :=
  if water_level ≥ WATER_LEVEL_CRITICAL ∨ rain_volume ≥ RAIN_VOLUME_CRITICAL then
    CRITICAL_MODE
  else if water_level ≥ WATER_LEVEL_ALERT ∨ rain_volume ≥ RAIN_VOLUME_ALERT then
    ALERT_MODE
  else if water_level ≥ WATER_LEVEL_WARNING ∨ rain_volume ≥ RAIN_VOLUME_WARNING then
    WARNING_MODE
  else
    NORMAL_MODE

/-- The variables of `vSensorTask` that live across loop iterations. -/
structure SensorState where
  sensor_data : sensor_data_t
  prev_water : Nat
  prev_rain : Nat
deriving DecidableEq

/-- The state of `vSensorTask` on entry to its loop (lines 140-147), the tick count
then being `t0`. The fields `water_level`, `rain_volume` and `mode` are not yet
assigned in C; every iteration assigns them before reading them. -/
def vSensorTask_init (t0 : Nat) : SensorState :=
  { sensor_data :=
      { water_level := 0, rain_volume := 0, water_rate := 0, rain_rate := 0,
        mode := NORMAL_MODE, trend_worsening := false, timestamp := u32 t0 },
    prev_water := 0,
    prev_rain := 0 }

/-- The float `time_diff` of line 163, in minutes, in exact arithmetic. -/
def time_diff (current_time timestamp : Nat) : ℚ :=
  (tickDiff current_time timestamp : ℚ) / 1000 / 60

/-- One iteration of the loop of `vSensorTask` (lines 150-189): `raw_water` and
`raw_rain` are the two `adc_read()` results, `current_time` the tick count of line
161. The `sensor_data` of the result is the item passed to `xQueueSend` at line 192. -/
def vSensorTask_cycle (hz : Nat) (st : SensorState) (raw_water raw_rain current_time : Nat) :
    SensorState :=
  let water_level := u16 ((u16 raw_water * 100) / 4095)
  let rain_volume := u16 ((u16 raw_rain * 100) / 4095)
  let now := u32 current_time
  let sd := { st.sensor_data with water_level := water_level, rain_volume := rain_volume }
  let st1 : SensorState :=
    if tickDiff now sd.timestamp ≥ pdMS_TO_TICKS hz 5000 then
      let td := time_diff now sd.timestamp
      let water_rate : ℚ := (((water_level : Int) - (st.prev_water : Int) : Int) : ℚ) / td
      let rain_rate : ℚ := (((rain_volume : Int) - (st.prev_rain : Int) : Int) : ℚ) / td
      let trend : Bool := decide (water_rate > 2) || decide (rain_rate > 3)
      { sensor_data :=
          { sd with water_rate := water_rate, rain_rate := rain_rate,
                    trend_worsening := trend, timestamp := now },
        prev_water := water_level,
        prev_rain := rain_volume }
    else
      { st with sensor_data := sd }
  { st1 with sensor_data :=
      { st1.sensor_data with
          mode := classifyMode st1.sensor_data.water_level st1.sensor_data.rain_volume } }

/-- The states `vSensorTask` passes through: the state after each iteration, for a list
of `(raw_water, raw_rain, current_time)` inputs, one per iteration. -/
def vSensorTask_run (hz : Nat) (st : SensorState) : List (Nat × Nat × Nat) → List SensorState
  | [] => []
  | (rw, rr, t) :: rest =>
      let st1 := vSensorTask_cycle hz st rw rr t
      st1 :: vSensorTask_run hz st1 rest

/-! ## vProcessingTask (lines 200-248) -/

/-- The variables `vProcessingTask` reads and writes across loop iterations: its locals
`last_mode` and `display_update_counter`, and the globals `last_sensor_data` and
`last_alert_time`. -/
structure ProcState where
  last_sensor_data : sensor_data_t
  last_alert_time : Nat
  last_mode : SystemMode
  display_update_counter : Nat
deriving DecidableEq

/-- The state on entry to the loop of `vProcessingTask` (lines 76-77 and 203-204). -/
def vProcessingTask_init : ProcState :=
  { last_sensor_data :=
      { water_level := 0, rain_volume := 0, water_rate := 0, rain_rate := 0,
        mode := NORMAL_MODE, trend_worsening := false, timestamp := 0 },
    last_alert_time := 0,
    last_mode := NORMAL_MODE,
    display_update_counter := 0 }

/-- What one iteration of `vProcessingTask` that received a reading produces: the new
state, the `alert_control` passed to `xQueueSend(xQueueAlertControl, ...)` at line 245,
and the reading passed to `xQueueSend(xQueueDisplayData, ...)` at line 241, if any. -/
structure ProcResult where
  state : ProcState
  alert_control : alert_control_t
  display_data : Option sensor_data_t
deriving DecidableEq

/-- The body of the `if (xQueueReceive(...) == pdTRUE)` of `vProcessingTask`
(lines 209-245), `sensor_data` being the received reading and `current_time` the tick
count of line 225. -/
def vProcessingTask_cycle (hz : Nat) (st : ProcState) (sensor_data : sensor_data_t)
    (current_time : Nat) : ProcResult :=
  let counter := u32 (st.display_update_counter + 1)
  let update_display : Bool := decide (sensor_data.mode ≠ NORMAL_MODE) || decide (counter ≥ 5)
  let counter1 := if update_display then 0 else counter
  let now := u32 current_time
  let alert : Bool :=
    decide (sensor_data.mode ≠ st.last_mode) ||
      (decide (sensor_data.mode ≠ NORMAL_MODE) &&
        decide (tickDiff now st.last_alert_time ≥ pdMS_TO_TICKS hz 10000))
  { state :=
      { last_sensor_data := sensor_data,
        last_alert_time := if alert then now else st.last_alert_time,
        last_mode := sensor_data.mode,
        display_update_counter := counter1 },
    alert_control :=
      { mode := sensor_data.mode, update_display := update_display,
        update_matrix := alert, update_sound := alert },
    display_data := if update_display then some sensor_data else none }

/-- The results of successive iterations of `vProcessingTask`, for a list of
`(received reading, current_time)` pairs, one per iteration that received a reading. -/
def vProcessingTask_run (hz : Nat) (st : ProcState) :
    List (sensor_data_t × Nat) → List ProcResult
  | [] => []
  | (sd, t) :: rest =>
      let r := vProcessingTask_cycle hz st sd t
      r :: vProcessingTask_run hz r.state rest

/-- The state of `vProcessingTask` after the iterations of `vProcessingTask_run`. -/
def vProcessingTask_after (hz : Nat) (st : ProcState) : List (sensor_data_t × Nat) → ProcState
  | [] => st
  | (sd, t) :: rest => vProcessingTask_after hz (vProcessingTask_cycle hz st sd t).state rest

/-! ## FreeRTOS queues (queue.h), as used at lines 192, 208, 241, 245, 354, 405, 473, 706-708

A queue is a bounded FIFO. `xQueueSend` with a wait of zero ticks copies the item to
the back when there is room and otherwise returns `errQUEUE_FULL` at once, leaving the
queue as it was. `xQueueReceive` removes and returns the item at the front; on an empty
queue on which nothing arrives within the wait it returns `pdFALSE`. -/

/-- A FreeRTOS queue: its length (capacity in items) and the items it holds, front first. -/
structure Queue (α : Type) where
  capacity : Nat
  items : List α

/-- The call `xQueueCreate(uxQueueLength, ...)`. -/
def xQueueCreate (α : Type) (uxQueueLength : Nat) : Queue α :=
  { capacity := uxQueueLength, items := [] }

/-- The call `xQueueSend(q, &item, 0)`: the queue after the call and whether the call
returned `pdTRUE`. With a wait of zero ticks the call returns at once; on a full queue it
returns `errQUEUE_FULL` and the new item is not stored. -/
def xQueueSend {α : Type} (q : Queue α) (item : α) : Queue α × Bool :=
  if q.items.length < q.capacity then
    ({ q with items := q.items ++ [item] }, true)
  else
    (q, false)

/-- The call `xQueueReceive(q, &item, wait)` when no send happens during the wait: the
queue after the call and the received item, `none` standing for `pdFALSE`. -/
def xQueueReceive {α : Type} (q : Queue α) : Queue α × Option α :=
  match q.items with
  | [] => (q, none)
  | x :: rest => ({ q with items := rest }, some x)

/-- The queue after the sends `xQueueSend(q, &x, 0)` for each `x` of a list, in order. -/
def sendAll {α : Type} (q : Queue α) : List α → Queue α
  | [] => q
  | x :: rest => sendAll (xQueueSend q x).1 rest

/-- The items delivered by up to `n` successive `xQueueReceive` calls, in order of receipt. -/
def receiveN {α : Type} (q : Queue α) : Nat → List α
  | 0 => []
  | n + 1 =>
    match xQueueReceive q with
    | (_, none) => []
    | (q1, some x) => x :: receiveN q1 n

/-- The queue `xQueueSensorData` as created at line 706. -/
def xQueueSensorData : Queue sensor_data_t := xQueueCreate sensor_data_t 5

/-- The queue `xQueueAlertControl` as created at line 707. -/
def xQueueAlertControl : Queue alert_control_t := xQueueCreate alert_control_t 5

/-- The queue `xQueueDisplayData` as created at line 708. -/
def xQueueDisplayData : Queue sensor_data_t := xQueueCreate sensor_data_t 3

/-! ## The directive consumers' receives (lines 354, 405, 473)

`vLedRGBTask`, `vMatrixLedTask` and `vBuzzerTask` each call
`xQueueReceive(xQueueAlertControl, &alert_control, pdMS_TO_TICKS(100))` on the one queue
created at line 707. -/

/-- The three tasks that receive from `xQueueAlertControl`. -/
inductive Consumer where
  | Indicator
  | Matrix
  | Audible
deriving DecidableEq

/-- The queue `xQueueAlertControl` together with the directives each consumer task has
received from it so far, oldest first. -/
structure DirectiveBus where
  queue : Queue alert_control_t
  received : Consumer → List alert_control_t

/-- The bus at start-up: the empty queue of line 707, nothing received. -/
def DirectiveBus.init : DirectiveBus :=
  { queue := xQueueAlertControl, received := fun _ => [] }

/-- The send of line 245 by `vProcessingTask`. -/
def DirectiveBus.send (b : DirectiveBus) (d : alert_control_t) : DirectiveBus :=
  { b with queue := (xQueueSend b.queue d).1 }

/-- One `xQueueReceive(xQueueAlertControl, ...)` by the task `c` (line 354, 405 or 473). -/
def DirectiveBus.receive (b : DirectiveBus) (c : Consumer) : DirectiveBus :=
  match xQueueReceive b.queue with
  | (q, none) => { b with queue := q }
  | (q, some d) =>
      { queue := q,
        received := fun c1 => if c1 = c then b.received c1 ++ [d] else b.received c1 }

/-! ## The RGB indicator: pico-sdk PWM calls and update_rgb_led (lines 329-337, 514-555) -/

def PWM_CHAN_A : Nat := 0
def PWM_CHAN_B : Nat := 1

/-- The counter-compare levels of the PWM block: `levels slice chan`, with `chan` 0 for
channel A and 1 for channel B. -/
structure PwmState where
  levels : Nat → Nat → Nat

/-- The pico-sdk `pwm_gpio_to_slice_num(gpio)`: `(gpio >> 1) & 7`. -/
def pwm_gpio_to_slice_num (gpio : Nat) : Nat := (gpio / 2) % 8

/-- The pico-sdk `pwm_set_chan_level(slice_num, chan, level)`: writes the 16-bit `level`
into the compare field of channel B of the slice when `chan` is non-zero, of channel A
otherwise; every other field is left as it was. -/
def pwm_set_chan_level (pwm : PwmState) (slice_num chan level : Nat) : PwmState :=
  { levels := fun s c =>
      if s = slice_num ∧ c = (if chan = 0 then PWM_CHAN_A else PWM_CHAN_B) then u16 level
      else pwm.levels s c }

/-- The channel `vLedRGBTask` computes for a pin (lines 335-337): `PWM_CHAN_A + (pin & 1)`. -/
def chan_of_pin (pin : Nat) : Nat := PWM_CHAN_A + pin % 2

/-- The intensity driven on a pin: the level of the pin's own slice and channel. -/
def pin_level (pwm : PwmState) (pin : Nat) : Nat :=
  pwm.levels (pwm_gpio_to_slice_num pin) (chan_of_pin pin)

/-- The three calls each branch of `update_rgb_led` makes, with the channels the source
passes: `PWM_CHAN_A` for red, `PWM_CHAN_B` for green, `PWM_CHAN_A` for blue. -/
def set_rgb (pwm : PwmState) (red green blue : Nat) : PwmState :=
  let slice_red := pwm_gpio_to_slice_num LED_RED
  let slice_green := pwm_gpio_to_slice_num LED_GREEN
  let slice_blue := pwm_gpio_to_slice_num LED_BLUE
  let p1 := pwm_set_chan_level pwm slice_red PWM_CHAN_A red
  let p2 := pwm_set_chan_level p1 slice_green PWM_CHAN_B green
  pwm_set_chan_level p2 slice_blue PWM_CHAN_A blue

/-- The function `update_rgb_led` (lines 514-555). -/
def update_rgb_led (pwm : PwmState) (mode : SystemMode) (trend_worsening : Bool) : PwmState :=
  match mode with
  | NORMAL_MODE => set_rgb pwm 0 255 0
  | WARNING_MODE => set_rgb pwm 255 255 0
  | ALERT_MODE => if trend_worsening then set_rgb pwm 255 128 0 else set_rgb pwm 255 0 0
  | CRITICAL_MODE => set_rgb pwm 255 0 0

/-- The three indicator intensities `(red, green, blue)` on GPIO 13, 11 and 12. -/
def rgb_levels (pwm : PwmState) : Nat × Nat × Nat :=
  (pin_level pwm LED_RED, pin_level pwm LED_GREEN, pin_level pwm LED_BLUE)

/-- The PWM block with every compare level at `v`. -/
def pwm_all (v : Nat) : PwmState := { levels := fun _ _ => v }

/-! ## One whole iteration of vProcessingTask, with its queues (lines 206-247) -/

/-- The evaluation task together with the three queues it touches. -/
structure ProcSystem where
  state : ProcState
  sensorQueue : Queue sensor_data_t
  displayQueue : Queue sensor_data_t
  alertQueue : Queue alert_control_t

/-- One iteration of the `while (true)` loop of `vProcessingTask` (lines 207-246) in which
no send to `xQueueSensorData` happens during the wait of line 208: the receive either
delivers the front reading or times out; only on a delivery is the body (lines 209-245)
run, with its conditional send to `xQueueDisplayData` and its send to
`xQueueAlertControl`. -/
def vProcessingTask_iteration (hz : Nat) (sys : ProcSystem) (current_time : Nat) : ProcSystem :=
  match xQueueReceive sys.sensorQueue with
  | (q, none) => { sys with sensorQueue := q }
  | (q, some sensor_data) =>
      let r := vProcessingTask_cycle hz sys.state sensor_data current_time
      { state := r.state,
        sensorQueue := q,
        displayQueue :=
          if r.alert_control.update_display then (xQueueSend sys.displayQueue sensor_data).1
          else sys.displayQueue,
        alertQueue := (xQueueSend sys.alertQueue r.alert_control).1 }

/-! ## vMatrixLedTask (lines 94-132, 395-457, 625-672) -/

/-- Store of a value into a `uint8_t`. -/
def u8 (x : Nat) : Nat := x % 256

def NUM_PIXELS : Nat := 25

def normal_pattern : List Bool :=
  [false, false, false, false, false,
   false, true, false, false, false,
   false, false, true, false, true,
   false, false, false, true, false,
   true, false, false, false, false]

def warning_pattern : List Bool :=
  [false, false, false, false, false,
   false, true, true, true, false,
   false, true, false, true, false,
   false, true, true, true, false,
   false, false, false, false, false]

def alert_pattern : List Bool :=
  [true, false, false, false, true,
   false, true, false, true, false,
   false, false, true, false, false,
   false, true, false, true, false,
   true, false, false, false, true]

def critical_pattern : List Bool :=
  [true, false, true, false, true,
   false, true, true, true, false,
   true, true, true, true, true,
   false, true, true, true, false,
   true, false, true, false, true]

def arrow_up_pattern : List Bool :=
  [false, false, true, false, false,
   false, true, true, true, false,
   true, false, true, false, true,
   false, false, true, false, false,
   false, false, true, false, false]

/-- The function `urgb_u32` (lines 665-667). -/
def urgb_u32 (r g b : Nat) : Nat :=
  u32 ((u8 r <<< 8) ||| (u8 g <<< 16) ||| u8 b)

/-- The function `put_pixel` (lines 670-672): the word handed to `pio_sm_put_blocking`. -/
def put_pixel (pixel_grb : Nat) : Nat := u32 (pixel_grb <<< 8)

/-- The loop `for (i = 0; i < NUM_PIXELS; i++)` over a pattern with one colour: the words
put to the PIO, in order. -/
def put_pattern (pattern : List Bool) (color : Nat) : List Nat :=
  (pattern.take NUM_PIXELS).map (fun lit => put_pixel (if lit then color else 0))

/-- The function `display_matrix_pattern` (lines 625-662): the words put to the PIO. Its
second argument is not read by the source. -/
def display_matrix_pattern (mode : SystemMode) (_trend_worsening : Bool) : List Nat :=
  match mode with
  | NORMAL_MODE => put_pattern normal_pattern (urgb_u32 0 32 0)
  | WARNING_MODE => put_pattern warning_pattern (urgb_u32 32 32 0)
  | ALERT_MODE => put_pattern alert_pattern (urgb_u32 64 0 0)
  | CRITICAL_MODE => put_pattern critical_pattern (urgb_u32 255 0 0)

/-- The variables of `vMatrixLedTask` that live across loop iterations, the function-local
static `verify_counter` included. -/
structure MatrixState where
  animation_counter : Nat
  animation_frame : Bool
  last_displayed_mode : SystemMode
  force_update : Bool
  verify_counter : Nat
deriving DecidableEq

/-- The state on entry to the loop of `vMatrixLedTask` (lines 397-400, 445). -/
def vMatrixLedTask_init : MatrixState :=
  { animation_counter := 0, animation_frame := false, last_displayed_mode := NORMAL_MODE,
    force_update := true, verify_counter := 0 }

/-- What the receive block of one iteration (lines 403-412) leaves behind. -/
structure MatrixDecision where
  update_needed : Bool
  last_displayed_mode : SystemMode
  force_update : Bool
deriving DecidableEq

/-- Lines 403-412 of `vMatrixLedTask`: `received` is the directive delivered by the
`xQueueReceive` of line 405, `none` when the receive timed out. -/
def vMatrixLedTask_receive (st : MatrixState) (received : Option alert_control_t) :
    MatrixDecision :=
  match received with
  | none =>
      { update_needed := false, last_displayed_mode := st.last_displayed_mode,
        force_update := st.force_update }
  | some alert_control =>
      if alert_control.mode ≠ st.last_displayed_mode ∨ alert_control.update_matrix = true ∨
          st.force_update = true then
        { update_needed := true, last_displayed_mode := alert_control.mode,
          force_update := false }
      else
        { update_needed := false, last_displayed_mode := st.last_displayed_mode,
          force_update := st.force_update }

/-- The result of one iteration of `vMatrixLedTask`: the new state, the `update_needed`
of that iteration, and the words put to the PIO. -/
structure MatrixResult where
  state : MatrixState
  update_needed : Bool
  pixels : List Nat
deriving DecidableEq

/-- One iteration of the loop of `vMatrixLedTask` (lines 403-453). `received` is the
outcome of the receive of line 405 and `last_sensor_data` the value of the global during
the iteration. -/
def vMatrixLedTask_cycle (st : MatrixState) (received : Option alert_control_t)
    (last_sensor_data : sensor_data_t) : MatrixResult :=
  let d := vMatrixLedTask_receive st received
  let animating : Bool :=
    last_sensor_data.trend_worsening &&
      (decide (last_sensor_data.mode = ALERT_MODE) ||
        decide (last_sensor_data.mode = CRITICAL_MODE))
  let counter1 := u32 (st.animation_counter + 1)
  let flip : Bool := animating && decide (counter1 ≥ 5)
  let animation_counter : Nat := if animating then (if flip then 0 else counter1) else 0
  let animation_frame : Bool :=
    if animating then (if flip then !st.animation_frame else st.animation_frame) else false
  let pixels : List Nat :=
    if animating then
      if flip then
        if animation_frame then put_pattern arrow_up_pattern (urgb_u32 255 0 0)
        else display_matrix_pattern last_sensor_data.mode false
      else []
    else if d.update_needed then display_matrix_pattern last_sensor_data.mode false
    else []
  let verify1 := u32 (st.verify_counter + 1)
  let check : Bool := decide (verify1 ≥ 20)
  let force_update : Bool :=
    if check && decide (d.last_displayed_mode ≠ last_sensor_data.mode) then true
    else d.force_update
  { state :=
      { animation_counter := animation_counter,
        animation_frame := animation_frame,
        last_displayed_mode := d.last_displayed_mode,
        force_update := force_update,
        verify_counter := if check then 0 else verify1 },
    update_needed := d.update_needed,
    pixels := pixels }

/-! ## The buzzer: play_alert_sound and the repeat interval (lines 486-500, 558-622) -/

/-- The calls `play_alert_sound` makes: the three PWM settings and `vTaskDelay`, the
delay carrying the argument of its `pdMS_TO_TICKS`, in milliseconds. -/
inductive BuzzerOp where
  | pwm_set_clkdiv (divider : ℚ)
  | pwm_set_wrap (wrap : Nat)
  | pwm_set_gpio_level (level : Nat)
  | vTaskDelay (ms : Nat)
deriving DecidableEq

/-- The body of the two siren loops (lines 603-607 and 612-616) for one `freq`. -/
def siren_step (freq : Int) : List BuzzerOp :=
  [BuzzerOp.pwm_set_clkdiv (125000000 / ((freq : ℚ) * 1000)), BuzzerOp.pwm_set_wrap 1000,
    BuzzerOp.pwm_set_gpio_level 500, BuzzerOp.vTaskDelay 50]

/-- The loop `for (freq = ...; freq <= 2000; freq += 100)` of line 602, entered with the
given `freq`; `fuel` bounds the number of iterations unfolded. -/
def sweep_up : Nat → Int → List BuzzerOp
  | 0, _ => []
  | fuel + 1, freq => if freq ≤ 2000 then siren_step freq ++ sweep_up fuel (freq + 100) else []

/-- The loop `for (freq = ...; freq >= 500; freq -= 100)` of line 611, entered with the
given `freq`; `fuel` bounds the number of iterations unfolded. -/
def sweep_down : Nat → Int → List BuzzerOp
  | 0, _ => []
  | fuel + 1, freq => if freq ≥ 500 then siren_step freq ++ sweep_down fuel (freq - 100) else []

/-- One beep of the Alert loop (lines 579-584). -/
def alert_beep : List BuzzerOp :=
  [BuzzerOp.pwm_set_clkdiv 50, BuzzerOp.pwm_set_wrap 1000, BuzzerOp.pwm_set_gpio_level 500,
    BuzzerOp.vTaskDelay 200, BuzzerOp.pwm_set_gpio_level 0, BuzzerOp.vTaskDelay 200]

/-- The function `play_alert_sound` (lines 558-622): the calls it makes, in order. The
siren loops are unfolded with fuel 64; `sweep_up_fuel` and `sweep_down_fuel` show that
they leave by their own condition from 17 on. -/
def play_alert_sound (mode : SystemMode) (trend_worsening : Bool) : List BuzzerOp :=
  match mode with
  | NORMAL_MODE => [BuzzerOp.pwm_set_gpio_level 0]
  | WARNING_MODE =>
      [BuzzerOp.pwm_set_clkdiv 100, BuzzerOp.pwm_set_wrap 1000, BuzzerOp.pwm_set_gpio_level 500,
        BuzzerOp.vTaskDelay 200, BuzzerOp.pwm_set_gpio_level 0]
  | ALERT_MODE =>
      alert_beep ++ alert_beep ++
        (if trend_worsening then
          [BuzzerOp.vTaskDelay 300, BuzzerOp.pwm_set_clkdiv 20, BuzzerOp.pwm_set_wrap 1000,
            BuzzerOp.pwm_set_gpio_level 500, BuzzerOp.vTaskDelay 500,
            BuzzerOp.pwm_set_gpio_level 0]
        else [])
  | CRITICAL_MODE =>
      (sweep_up 64 500 ++ sweep_down 64 2000) ++ (sweep_up 64 500 ++ sweep_down 64 2000) ++
        (sweep_up 64 500 ++ sweep_down 64 2000) ++ [BuzzerOp.pwm_set_gpio_level 0]

/-- The time a sequence of buzzer calls blocks the task: the sum of its delays, in ms. -/
def blocking_ms : List BuzzerOp → Nat
  | [] => 0
  | BuzzerOp.vTaskDelay ms :: rest => ms + blocking_ms rest
  | _ :: rest => blocking_ms rest

/-- The argument of `pdMS_TO_TICKS` in the `switch` of `vBuzzerTask` (lines 488-500): the
repeat interval of a mode, in ms. -/
def sound_interval_ms (mode : SystemMode) : Nat :=
  match mode with
  | WARNING_MODE => 10000
  | ALERT_MODE => 5000
  | CRITICAL_MODE => 2000
  | NORMAL_MODE => 20000

/-- The `sound_interval` of `vBuzzerTask` (lines 487-500), in ticks. -/
def sound_interval (hz : Nat) (mode : SystemMode) : Nat :=
  pdMS_TO_TICKS hz (sound_interval_ms mode)

/-! ## Auxiliary definitions of the statements and proofs -/

/-- The `update_display` flags of `n` successive evaluation cycles that all receive a
Normal reading, as determined by the counter value `c` before the first of them
(lines 216-222 with `sensor_data.mode == NORMAL_MODE`). -/
def normal_display_flags : Nat → Nat → List Bool
  | _, 0 => []
  | c, n + 1 =>
      if u32 (c + 1) ≥ 5 then true :: normal_display_flags 0 n
      else false :: normal_display_flags (u32 (c + 1)) n

/-- The trend flag of a reading agrees with its stored rates. -/
def TrendAgrees (sd : sensor_data_t) : Prop :=
  sd.trend_worsening = true ↔ (sd.water_rate > 2 ∨ sd.rain_rate > 3)

/-- The number of directives the three consumers have received, plus those still queued. -/
def DirectiveBus.total (b : DirectiveBus) : Nat :=
  (b.received Consumer.Indicator).length + (b.received Consumer.Matrix).length +
    (b.received Consumer.Audible).length + b.queue.items.length

/-! ## Sample data -/

/-- A reading with the given levels, classified as `vSensorTask` does, with zero rates. -/
def reading_of (water_level rain_volume : Nat) : sensor_data_t :=
  { water_level := water_level, rain_volume := rain_volume, water_rate := 0, rain_rate := 0,
    mode := classifyMode water_level rain_volume, trend_worsening := false, timestamp := 0 }

/-- An evaluation state that recorded Alert mode with the flags last raised at tick 1000. -/
def proc_alerted : ProcState :=
  { last_sensor_data := reading_of 75 0, last_alert_time := 1000,
    last_mode := ALERT_MODE, display_update_counter := 0 }

/-- Ten Normal readings, received 100 ticks apart. -/
def ten_normal : List (sensor_data_t × Nat) :=
  (List.range 10).map (fun i => (reading_of 10 10, 100 * (i + 1)))

/-- The sampling state after a first rate computation at tick 5000 that read water
level 40 (raw sample 1638), the task having started at tick 0. -/
def sensor_at_40 : SensorState := vSensorTask_cycle 1000 (vSensorTask_init 0) 1638 0 5000

/-- Six readings with water levels 1 to 6, in the order they are sent. -/
def six_readings : List sensor_data_t :=
  [reading_of 1 0, reading_of 2 0, reading_of 3 0, reading_of 4 0, reading_of 5 0,
    reading_of 6 0]

/-- The directive of a change to Critical: every flag set. -/
def critical_directive : alert_control_t :=
  { mode := CRITICAL_MODE, update_display := true, update_matrix := true,
    update_sound := true }

/-- The evaluation task in Alert mode with nothing to receive: the sensor queue is empty,
the display queue holds one reading and the directive queue one directive. -/
def proc_system_idle : ProcSystem :=
  { state := proc_alerted,
    sensorQueue := xQueueSensorData,
    displayQueue := (xQueueSend xQueueDisplayData (reading_of 75 0)).1,
    alertQueue := (xQueueSend xQueueAlertControl critical_directive).1 }

/-! ## Theorems -/

/-! ### Ticks -/

theorem u32_lt (x : Nat) : u32 x < 4294967296 := by
  unfold u32; omega

theorem u32_idem (x : Nat) : u32 (u32 x) = u32 x := by
  unfold u32; omega

theorem tickDiff_u32_left (a b : Nat) : tickDiff (u32 a) b = tickDiff a b := by
  unfold tickDiff; rw [u32_idem]

theorem tickDiff_u32_right (a b : Nat) : tickDiff a (u32 b) = tickDiff a b := by
  unfold tickDiff; rw [u32_idem]

/-- Between two instants `t0 ≤ t` of unwrapped time the tick counter difference is the
elapsed time modulo `2^32`; in particular it never exceeds the elapsed time. -/
theorem tickDiff_le_elapsed (t0 t : Nat) (h : t0 ≤ t) : tickDiff t t0 ≤ t - t0 := by
  unfold tickDiff u32; omega

/-- With no overflow of the tick type, `pdMS_TO_TICKS(1000 * s)` is `s * hz` ticks. -/
theorem pdMS_TO_TICKS_seconds (hz s : Nat) (h : s * hz < 4294967296) :
    pdMS_TO_TICKS hz (1000 * s) = s * hz := by
  unfold pdMS_TO_TICKS u32
  have : 1000 * s * hz / 1000 = s * hz := by
    rw [Nat.mul_assoc]; exact Nat.mul_div_cancel_left _ (by norm_num)
  rw [this]; exact Nat.mod_eq_of_lt h

/-! ### C1: classification -/

/-- C1. In every sampling cycle the published mode is `classifyMode` of the published
`water_level` and `rain_volume` alone, and `classifyMode` is: Critical iff water >= 85
or rain >= 90; else Alert iff water >= 70 or rain >= 80; else Warning iff water >= 50
or rain >= 60; else Normal. (85,0) is Critical, (70,0) Alert, (50,0) Warning and
(49,59) Normal. -/
theorem classification_by_thresholds :
    (∀ (hz : Nat) (st : SensorState) (raw_water raw_rain t : Nat),
      (vSensorTask_cycle hz st raw_water raw_rain t).sensor_data.mode =
        classifyMode (vSensorTask_cycle hz st raw_water raw_rain t).sensor_data.water_level
          (vSensorTask_cycle hz st raw_water raw_rain t).sensor_data.rain_volume) ∧
    (∀ w r : Nat,
      (classifyMode w r = CRITICAL_MODE ↔ (w ≥ 85 ∨ r ≥ 90)) ∧
      (classifyMode w r = ALERT_MODE ↔ (¬ (w ≥ 85 ∨ r ≥ 90) ∧ (w ≥ 70 ∨ r ≥ 80))) ∧
      (classifyMode w r = WARNING_MODE ↔
        (¬ (w ≥ 85 ∨ r ≥ 90) ∧ ¬ (w ≥ 70 ∨ r ≥ 80) ∧ (w ≥ 50 ∨ r ≥ 60))) ∧
      (classifyMode w r = NORMAL_MODE ↔
        (¬ (w ≥ 85 ∨ r ≥ 90) ∧ ¬ (w ≥ 70 ∨ r ≥ 80) ∧ ¬ (w ≥ 50 ∨ r ≥ 60)))) ∧
    classifyMode 85 0 = CRITICAL_MODE ∧ classifyMode 70 0 = ALERT_MODE ∧
    classifyMode 50 0 = WARNING_MODE ∧ classifyMode 49 59 = NORMAL_MODE := by
  refine ⟨?_, ?_, by decide, by decide, by decide, by decide⟩
  · intro hz st raw_water raw_rain t
    rfl
  · intro w r
    unfold classifyMode WATER_LEVEL_CRITICAL RAIN_VOLUME_CRITICAL WATER_LEVEL_ALERT
      RAIN_VOLUME_ALERT WATER_LEVEL_WARNING RAIN_VOLUME_WARNING
    by_cases h1 : w ≥ 85 ∨ r ≥ 90
    · simp [h1]
    · by_cases h2 : w ≥ 70 ∨ r ≥ 80
      · simp [h1, h2]
      · by_cases h3 : w ≥ 50 ∨ r ≥ 60
        · simp [h1, h2, h3]
        · simp [h1, h2, h3]

/-! ### C2: the matrix and sound flags -/

/-- The alert decision of one evaluation cycle, as a proposition. -/
theorem cycle_update_matrix_iff (hz : Nat) (st : ProcState) (sd : sensor_data_t) (t : Nat) :
    (vProcessingTask_cycle hz st sd t).alert_control.update_matrix = true ↔
      (sd.mode ≠ st.last_mode ∨
        (sd.mode ≠ NORMAL_MODE ∧ tickDiff t st.last_alert_time ≥ pdMS_TO_TICKS hz 10000)) := by
  simp only [vProcessingTask_cycle, tickDiff_u32_left, Bool.or_eq_true, Bool.and_eq_true,
    decide_eq_true_eq]

theorem cycle_last_alert_time (hz : Nat) (st : ProcState) (sd : sensor_data_t) (t : Nat) :
    (vProcessingTask_cycle hz st sd t).state.last_alert_time =
      if (vProcessingTask_cycle hz st sd t).alert_control.update_matrix = true then u32 t
      else st.last_alert_time := by
  simp only [vProcessingTask_cycle]

theorem cycle_last_mode (hz : Nat) (st : ProcState) (sd : sensor_data_t) (t : Nat) :
    (vProcessingTask_cycle hz st sd t).state.last_mode = sd.mode := rfl

/-- Cycles that all carry the recorded mode and raise no alert flag leave `last_mode`
and `last_alert_time` as they were. -/
theorem after_quiet (hz : Nat) (pre : List (sensor_data_t × Nat)) :
    ∀ st : ProcState,
      (∀ c ∈ pre, c.1.mode = st.last_mode) →
      (∀ r ∈ vProcessingTask_run hz st pre, r.alert_control.update_matrix = false) →
      (vProcessingTask_after hz st pre).last_mode = st.last_mode ∧
        (vProcessingTask_after hz st pre).last_alert_time = st.last_alert_time := by
  induction pre with
  | nil => intro st _ _; exact ⟨rfl, rfl⟩
  | cons c rest ih =>
    intro st hmode hquiet
    obtain ⟨sd, t⟩ := c
    have hsd : sd.mode = st.last_mode := hmode (sd, t) (List.mem_cons_self _ _)
    have hq0 : (vProcessingTask_cycle hz st sd t).alert_control.update_matrix = false :=
      hquiet _ (by simp [vProcessingTask_run])
    have hlm : (vProcessingTask_cycle hz st sd t).state.last_mode = st.last_mode := by
      rw [cycle_last_mode, hsd]
    have hlt : (vProcessingTask_cycle hz st sd t).state.last_alert_time = st.last_alert_time := by
      rw [cycle_last_alert_time, hq0]; simp
    have := ih (vProcessingTask_cycle hz st sd t).state
      (fun c hc => by rw [hlm]; exact hmode c (List.mem_cons_of_mem _ hc))
      (fun r hr => hquiet r (by simp [vProcessingTask_run]; exact Or.inr hr))
    simp only [vProcessingTask_after]
    exact ⟨this.1.trans hlm, this.2.trans hlt⟩

/-- C2. In every evaluation cycle that receives a reading, `update_matrix` equals
`update_sound`; they are true iff the reading's mode differs from `last_mode`, or the
mode is not Normal and `current tick - last_alert_time >= pdMS_TO_TICKS(10000)`;
`last_alert_time` becomes the current tick exactly when they are true and is otherwise
unchanged; `last_mode` becomes the reading's mode. Consequently they are true on every
mode change (a return to Normal included), and while the mode stays at one non-Normal
value they are true again only once at least 10000 ms of ticks have passed since the
tick `t0` at which they were last true. -/
theorem alert_flags_rule (hz : Nat) :
    (∀ (st : ProcState) (sd : sensor_data_t) (t : Nat),
      (vProcessingTask_cycle hz st sd t).alert_control.update_matrix =
        (vProcessingTask_cycle hz st sd t).alert_control.update_sound ∧
      ((vProcessingTask_cycle hz st sd t).alert_control.update_matrix = true ↔
        (sd.mode ≠ st.last_mode ∨
          (sd.mode ≠ NORMAL_MODE ∧
            tickDiff t st.last_alert_time ≥ pdMS_TO_TICKS hz 10000))) ∧
      ((vProcessingTask_cycle hz st sd t).state.last_alert_time =
        if (vProcessingTask_cycle hz st sd t).alert_control.update_matrix = true then u32 t
        else st.last_alert_time) ∧
      (vProcessingTask_cycle hz st sd t).state.last_mode = sd.mode) ∧
    (∀ (st : ProcState) (sd : sensor_data_t) (t : Nat), sd.mode ≠ st.last_mode →
      (vProcessingTask_cycle hz st sd t).alert_control.update_matrix = true ∧
      (vProcessingTask_cycle hz st sd t).alert_control.update_sound = true) ∧
    (∀ (st : ProcState) (pre : List (sensor_data_t × Nat)) (sd : sensor_data_t) (t0 t : Nat),
      st.last_mode ≠ NORMAL_MODE → st.last_alert_time = u32 t0 → t0 ≤ t →
      (∀ c ∈ pre, c.1.mode = st.last_mode) → sd.mode = st.last_mode →
      (∀ r ∈ vProcessingTask_run hz st pre, r.alert_control.update_matrix = false) →
      (vProcessingTask_cycle hz (vProcessingTask_after hz st pre) sd t).alert_control.update_matrix
        = true →
      pdMS_TO_TICKS hz 10000 ≤ t - t0) := by
  refine ⟨fun st sd t => ⟨rfl, cycle_update_matrix_iff hz st sd t,
    cycle_last_alert_time hz st sd t, rfl⟩, ?_, ?_⟩
  · intro st sd t hne
    have h := (cycle_update_matrix_iff hz st sd t).mpr (Or.inl hne)
    exact ⟨h, h⟩
  · intro st pre sd t0 t _ hlast hle hpre hsd hquiet htrue
    obtain ⟨hlm, hlt⟩ := after_quiet hz pre st hpre hquiet
    rcases (cycle_update_matrix_iff hz _ sd t).mp htrue with hne | ⟨_, hge⟩
    · exact absurd (hsd.trans hlm.symm) hne
    · rw [hlt, hlast, tickDiff_u32_right] at hge
      exact le_trans hge (tickDiff_le_elapsed t0 t hle)

theorem alert_flags_rule_witness :
    (vProcessingTask_cycle 1000 proc_alerted (reading_of 75 0) 5000).alert_control.update_matrix
        = false ∧
      (vProcessingTask_cycle 1000
        (vProcessingTask_after 1000 proc_alerted [(reading_of 75 0, 5000)])
        (reading_of 75 0) 11000).alert_control.update_matrix = true ∧
      pdMS_TO_TICKS 1000 10000 ≤ 11000 - 1000 :=
  ⟨by decide, by decide,
    (alert_flags_rule 1000).2.2 proc_alerted [(reading_of 75 0, 5000)] (reading_of 75 0)
      1000 11000 (by decide) (by decide) (by decide)
      (by intro c hc; simp only [List.mem_singleton] at hc; subst hc; decide)
      (by decide)
      (by intro r hr; simp only [vProcessingTask_run, List.mem_singleton] at hr; subst hr; decide)
      (by decide)⟩

/-! ### C3: display throttling -/

theorem cycle_counter_le (hz : Nat) (st : ProcState) (sd : sensor_data_t) (t : Nat) :
    (vProcessingTask_cycle hz st sd t).state.display_update_counter ≤ 4 := by
  simp only [vProcessingTask_cycle]
  split
  · exact Nat.zero_le _
  · rename_i h
    simp only [Bool.or_eq_true, decide_eq_true_eq, not_or] at h
    omega

/-- In every state reached from the initial one the counter is within 0..4. -/
theorem reachable_counter_le (hz : Nat) (hist : List (sensor_data_t × Nat)) :
    ∀ st : ProcState, st.display_update_counter ≤ 4 →
      (vProcessingTask_after hz st hist).display_update_counter ≤ 4 := by
  induction hist with
  | nil => intro st h; exact h
  | cons c rest ih =>
    intro st _
    obtain ⟨sd, t⟩ := c
    exact ih _ (cycle_counter_le hz st sd t)

theorem run_normal_flags (hz : Nat) (win : List (sensor_data_t × Nat)) :
    ∀ st : ProcState, (∀ c ∈ win, c.1.mode = NORMAL_MODE) →
      (vProcessingTask_run hz st win).map (fun r => r.alert_control.update_display) =
        normal_display_flags st.display_update_counter win.length := by
  induction win with
  | nil => intro st _; rfl
  | cons c rest ih =>
    intro st hnorm
    obtain ⟨sd, t⟩ := c
    have hsd : sd.mode = NORMAL_MODE := hnorm (sd, t) (List.mem_cons_self _ _)
    have hrest := fun s1 => ih s1 (fun c hc => hnorm c (List.mem_cons_of_mem _ hc))
    simp only [vProcessingTask_run, List.map_cons, List.length_cons, normal_display_flags]
    rw [hrest]
    by_cases h5 : u32 (st.display_update_counter + 1) ≥ 5
    · simp [vProcessingTask_cycle, hsd, h5]
    · simp [vProcessingTask_cycle, hsd, h5]

theorem normal_display_flags_five (c : Nat) (h : c ≤ 4) :
    (normal_display_flags c 5).count true = 1 := by
  interval_cases c <;> decide

/-- C3. In every state of `vProcessingTask` reached from its initial state by any
sequence of received readings, `display_update_counter` is within 0..4, and any 5
consecutive cycles from there whose readings are all Normal contain exactly one cycle
with `update_display` true. -/
theorem display_throttle_one_in_five (hz : Nat) (hist win : List (sensor_data_t × Nat))
    (hlen : win.length = 5) (hnorm : ∀ c ∈ win, c.1.mode = NORMAL_MODE) :
    (vProcessingTask_after hz vProcessingTask_init hist).display_update_counter ≤ 4 ∧
    (∀ r ∈ vProcessingTask_run hz (vProcessingTask_after hz vProcessingTask_init hist) win,
      r.state.display_update_counter ≤ 4) ∧
    ((vProcessingTask_run hz (vProcessingTask_after hz vProcessingTask_init hist) win).filter
      (fun r => r.alert_control.update_display)).length = 1 := by
  have hc : (vProcessingTask_after hz vProcessingTask_init hist).display_update_counter ≤ 4 :=
    reachable_counter_le hz hist vProcessingTask_init (by decide)
  refine ⟨hc, ?_, ?_⟩
  · generalize vProcessingTask_after hz vProcessingTask_init hist = st
    clear hc hlen hnorm
    induction win generalizing st with
    | nil => intro r hr; simp [vProcessingTask_run] at hr
    | cons c rest ih =>
      obtain ⟨sd, t⟩ := c
      intro r hr
      simp only [vProcessingTask_run, List.mem_cons] at hr
      rcases hr with rfl | hr
      · exact cycle_counter_le hz st sd t
      · exact ih _ r hr
  · have hflags := run_normal_flags hz win
      (vProcessingTask_after hz vProcessingTask_init hist) hnorm
    rw [hlen] at hflags
    have hcount := normal_display_flags_five _ hc
    rw [← hflags, List.count, List.countP_map, List.countP_eq_length_filter] at hcount
    rw [← hcount]
    congr 1
    apply List.filter_congr
    intro r _
    simp

theorem display_throttle_one_in_five_witness :
    (vProcessingTask_after 1000 vProcessingTask_init
        [(reading_of 10 10, 100), (reading_of 90 0, 200), (reading_of 20 5, 300)]
      ).display_update_counter ≤ 4 ∧
    (∀ r ∈ vProcessingTask_run 1000
        (vProcessingTask_after 1000 vProcessingTask_init
          [(reading_of 10 10, 100), (reading_of 90 0, 200), (reading_of 20 5, 300)])
        [(reading_of 1 1, 400), (reading_of 2 2, 500), (reading_of 3 3, 600),
          (reading_of 4 4, 700), (reading_of 5 5, 800)],
      r.state.display_update_counter ≤ 4) ∧
    ((vProcessingTask_run 1000
        (vProcessingTask_after 1000 vProcessingTask_init
          [(reading_of 10 10, 100), (reading_of 90 0, 200), (reading_of 20 5, 300)])
        [(reading_of 1 1, 400), (reading_of 2 2, 500), (reading_of 3 3, 600),
          (reading_of 4 4, 700), (reading_of 5 5, 800)]).filter
      (fun r => r.alert_control.update_display)).length = 1 :=
  display_throttle_one_in_five 1000
    [(reading_of 10 10, 100), (reading_of 90 0, 200), (reading_of 20 5, 300)]
    [(reading_of 1 1, 400), (reading_of 2 2, 500), (reading_of 3 3, 600),
      (reading_of 4 4, 700), (reading_of 5 5, 800)]
    (by decide)
    (by
      intro c hc
      simp only [List.mem_cons, List.mem_singleton, List.not_mem_nil, or_false] at hc
      rcases hc with rfl | rfl | rfl | rfl | rfl <;> decide)

/-! ### C4: transition away from Normal -/

theorem classifyMode_critical_of_water (w r : Nat) (h : w ≥ 85) :
    classifyMode w r = CRITICAL_MODE := by
  simp [classifyMode, WATER_LEVEL_CRITICAL, h]

theorem sensor_cycle_mode (hz : Nat) (ss : SensorState) (raw_water raw_rain ts : Nat) :
    (vSensorTask_cycle hz ss raw_water raw_rain ts).sensor_data.mode =
      classifyMode (vSensorTask_cycle hz ss raw_water raw_rain ts).sensor_data.water_level
        (vSensorTask_cycle hz ss raw_water raw_rain ts).sensor_data.rain_volume := rfl

/-- C4. For every evaluation state whose `last_mode` is Normal (any counter, any
`last_alert_time`, any tick) and every reading published by a sampling cycle with
`water_level >= 85`: the reading's mode is Critical, and the evaluation cycle that
receives it emits mode Critical with `update_display`, `update_matrix` and
`update_sound` all true and resets `display_update_counter` to 0. -/
theorem normal_to_critical (hz : Nat) (ss : SensorState) (raw_water raw_rain ts : Nat)
    (st : ProcState) (t : Nat) (hlast : st.last_mode = NORMAL_MODE)
    (hw : (vSensorTask_cycle hz ss raw_water raw_rain ts).sensor_data.water_level ≥ 85) :
    (vSensorTask_cycle hz ss raw_water raw_rain ts).sensor_data.mode = CRITICAL_MODE ∧
    (vProcessingTask_cycle hz st
        (vSensorTask_cycle hz ss raw_water raw_rain ts).sensor_data t).alert_control =
      { mode := CRITICAL_MODE, update_display := true, update_matrix := true,
        update_sound := true } ∧
    (vProcessingTask_cycle hz st
        (vSensorTask_cycle hz ss raw_water raw_rain ts).sensor_data t
      ).state.display_update_counter = 0 := by
  have hmode : (vSensorTask_cycle hz ss raw_water raw_rain ts).sensor_data.mode
      = CRITICAL_MODE := by
    rw [sensor_cycle_mode]; exact classifyMode_critical_of_water _ _ hw
  refine ⟨hmode, ?_, ?_⟩
  · simp [vProcessingTask_cycle, hmode, hlast]
  · simp [vProcessingTask_cycle, hmode]

theorem normal_to_critical_witness :
    (vProcessingTask_after 1000 vProcessingTask_init ten_normal).last_mode = NORMAL_MODE ∧
    (vSensorTask_cycle 1000 (vSensorTask_init 0) 3686 0 1100).sensor_data.water_level = 90 ∧
    (vSensorTask_cycle 1000 (vSensorTask_init 0) 3686 0 1100).sensor_data.mode
      = CRITICAL_MODE ∧
    (vProcessingTask_cycle 1000 (vProcessingTask_after 1000 vProcessingTask_init ten_normal)
        (vSensorTask_cycle 1000 (vSensorTask_init 0) 3686 0 1100).sensor_data 1100
      ).alert_control =
      { mode := CRITICAL_MODE, update_display := true, update_matrix := true,
        update_sound := true } ∧
    (vProcessingTask_cycle 1000 (vProcessingTask_after 1000 vProcessingTask_init ten_normal)
        (vSensorTask_cycle 1000 (vSensorTask_init 0) 3686 0 1100).sensor_data 1100
      ).state.display_update_counter = 0 :=
  ⟨by decide, by decide,
    normal_to_critical 1000 (vSensorTask_init 0) 3686 0 1100
      (vProcessingTask_after 1000 vProcessingTask_init ten_normal) 1100
      (by decide) (by decide)⟩

/-! ### The two branches of the rate computation (lines 162-178) -/

theorem sensor_cycle_water_level (hz : Nat) (ss : SensorState) (raw_water raw_rain now : Nat) :
    (vSensorTask_cycle hz ss raw_water raw_rain now).sensor_data.water_level =
      u16 ((u16 raw_water * 100) / 4095) := by
  simp only [vSensorTask_cycle]
  split <;> rfl

theorem sensor_cycle_rain_volume (hz : Nat) (ss : SensorState) (raw_water raw_rain now : Nat) :
    (vSensorTask_cycle hz ss raw_water raw_rain now).sensor_data.rain_volume =
      u16 ((u16 raw_rain * 100) / 4095) := by
  simp only [vSensorTask_cycle]
  split <;> rfl

/-- When the window has elapsed the cycle recomputes rates, trend, timestamp and baselines. -/
theorem sensor_cycle_recompute (hz : Nat) (ss : SensorState) (raw_water raw_rain now : Nat)
    (h : tickDiff now ss.sensor_data.timestamp ≥ pdMS_TO_TICKS hz 5000) :
    (vSensorTask_cycle hz ss raw_water raw_rain now).sensor_data.water_rate =
        ((((vSensorTask_cycle hz ss raw_water raw_rain now).sensor_data.water_level : Int)
          - (ss.prev_water : Int) : Int) : ℚ) / time_diff now ss.sensor_data.timestamp ∧
    (vSensorTask_cycle hz ss raw_water raw_rain now).sensor_data.rain_rate =
        ((((vSensorTask_cycle hz ss raw_water raw_rain now).sensor_data.rain_volume : Int)
          - (ss.prev_rain : Int) : Int) : ℚ) / time_diff now ss.sensor_data.timestamp ∧
    (vSensorTask_cycle hz ss raw_water raw_rain now).sensor_data.trend_worsening =
        (decide ((vSensorTask_cycle hz ss raw_water raw_rain now).sensor_data.water_rate > 2) ||
          decide ((vSensorTask_cycle hz ss raw_water raw_rain now).sensor_data.rain_rate > 3)) ∧
    (vSensorTask_cycle hz ss raw_water raw_rain now).sensor_data.timestamp = u32 now ∧
    (vSensorTask_cycle hz ss raw_water raw_rain now).prev_water =
        (vSensorTask_cycle hz ss raw_water raw_rain now).sensor_data.water_level ∧
    (vSensorTask_cycle hz ss raw_water raw_rain now).prev_rain =
        (vSensorTask_cycle hz ss raw_water raw_rain now).sensor_data.rain_volume := by
  have h1 : tickDiff (u32 now) ss.sensor_data.timestamp ≥ pdMS_TO_TICKS hz 5000 := by
    rw [tickDiff_u32_left]; exact h
  simp only [vSensorTask_cycle, time_diff, tickDiff_u32_left] at h1 ⊢
  rw [if_pos h1]
  exact ⟨rfl, rfl, rfl, rfl, rfl, rfl⟩

/-- When the window has not elapsed the cycle keeps rates, trend, timestamp and baselines. -/
theorem sensor_cycle_carry (hz : Nat) (ss : SensorState) (raw_water raw_rain now : Nat)
    (h : tickDiff now ss.sensor_data.timestamp < pdMS_TO_TICKS hz 5000) :
    (vSensorTask_cycle hz ss raw_water raw_rain now).sensor_data.water_rate
        = ss.sensor_data.water_rate ∧
    (vSensorTask_cycle hz ss raw_water raw_rain now).sensor_data.rain_rate
        = ss.sensor_data.rain_rate ∧
    (vSensorTask_cycle hz ss raw_water raw_rain now).sensor_data.trend_worsening
        = ss.sensor_data.trend_worsening ∧
    (vSensorTask_cycle hz ss raw_water raw_rain now).sensor_data.timestamp
        = ss.sensor_data.timestamp ∧
    (vSensorTask_cycle hz ss raw_water raw_rain now).prev_water = ss.prev_water ∧
    (vSensorTask_cycle hz ss raw_water raw_rain now).prev_rain = ss.prev_rain := by
  have h1 : ¬ tickDiff (u32 now) ss.sensor_data.timestamp ≥ pdMS_TO_TICKS hz 5000 := by
    rw [tickDiff_u32_left]; exact not_le.mpr h
  simp only [vSensorTask_cycle] at h1 ⊢
  rw [if_neg h1]
  exact ⟨rfl, rfl, rfl, rfl, rfl, rfl⟩

theorem pdMS_TO_TICKS_1000_5000 : pdMS_TO_TICKS 1000 5000 = 5000 := by decide

/-! ### C5: the rate at a window boundary -/

/-- C5, as amended. With one tick equal to one millisecond (`hz = 1000`), if the previous
rate computation recorded water level 40 and the current sampling cycle reads water
level 50 exactly 5000 ticks later, the cycle sets `water_rate = 120` (%/min): 10 points
over one twelfth of a minute. -/
theorem rate_at_window_boundary (ss : SensorState) (raw_water raw_rain now : Nat)
    (hprev : ss.prev_water = 40)
    (hlevel : (vSensorTask_cycle 1000 ss raw_water raw_rain now).sensor_data.water_level = 50)
    (helapsed : tickDiff now ss.sensor_data.timestamp = 5000) :
    (vSensorTask_cycle 1000 ss raw_water raw_rain now).sensor_data.water_rate = 120 := by
  have h := (sensor_cycle_recompute 1000 ss raw_water raw_rain now
    (by rw [helapsed, pdMS_TO_TICKS_1000_5000])).1
  rw [h, hlevel, hprev, time_diff, helapsed]
  norm_num

theorem rate_at_window_boundary_witness :
    sensor_at_40.prev_water = 40 ∧
    (vSensorTask_cycle 1000 sensor_at_40 2048 0 10000).sensor_data.water_level = 50 ∧
    tickDiff 10000 sensor_at_40.sensor_data.timestamp = 5000 ∧
    (vSensorTask_cycle 1000 sensor_at_40 2048 0 10000).sensor_data.water_rate = 120 :=
  ⟨by decide, by decide, by decide,
    rate_at_window_boundary sensor_at_40 2048 0 10000 (by decide) (by decide) (by decide)⟩

/-- C5, as stated, fails: from recorded level 40, a reading of level 50 taken 5000 ms
later (one tick per millisecond) does not give `water_rate = 10`. -/
theorem rate_at_window_boundary_not_ten :
    sensor_at_40.prev_water = 40 ∧
    (vSensorTask_cycle 1000 sensor_at_40 2048 0 10000).sensor_data.water_level = 50 ∧
    tickDiff 10000 sensor_at_40.sensor_data.timestamp = 5000 ∧
    (vSensorTask_cycle 1000 sensor_at_40 2048 0 10000).sensor_data.water_rate ≠ 10 := by
  have hp : sensor_at_40.prev_water = 40 := by decide
  have hl : (vSensorTask_cycle 1000 sensor_at_40 2048 0 10000).sensor_data.water_level = 50 := by
    decide
  have he : tickDiff 10000 sensor_at_40.sensor_data.timestamp = 5000 := by decide
  refine ⟨hp, hl, he, ?_⟩
  have h := (sensor_cycle_recompute 1000 sensor_at_40 2048 0 10000
    (by rw [he, pdMS_TO_TICKS_1000_5000])).1
  rw [h, hl, hp, time_diff, he]
  norm_num

/-! ### C6: rates are carried forward between window boundaries -/

/-- C6. In every sampling cycle in which fewer than `pdMS_TO_TICKS(5000)` ticks have
elapsed since the timestamp of the last rate computation, whatever the two samples
read, the published reading's `water_rate`, `rain_rate`, `trend_worsening` and
`timestamp` are those of the previous cycle and the baselines `prev_water` and
`prev_rain` are unchanged. -/
theorem rates_carried_forward (hz : Nat) (ss : SensorState) (raw_water raw_rain now : Nat)
    (h : tickDiff now ss.sensor_data.timestamp < pdMS_TO_TICKS hz 5000) :
    (vSensorTask_cycle hz ss raw_water raw_rain now).sensor_data.water_rate
        = ss.sensor_data.water_rate ∧
    (vSensorTask_cycle hz ss raw_water raw_rain now).sensor_data.rain_rate
        = ss.sensor_data.rain_rate ∧
    (vSensorTask_cycle hz ss raw_water raw_rain now).sensor_data.trend_worsening
        = ss.sensor_data.trend_worsening ∧
    (vSensorTask_cycle hz ss raw_water raw_rain now).sensor_data.timestamp
        = ss.sensor_data.timestamp ∧
    (vSensorTask_cycle hz ss raw_water raw_rain now).prev_water = ss.prev_water ∧
    (vSensorTask_cycle hz ss raw_water raw_rain now).prev_rain = ss.prev_rain :=
  sensor_cycle_carry hz ss raw_water raw_rain now h

theorem rates_carried_forward_witness :
    tickDiff 9000 sensor_at_40.sensor_data.timestamp = 4000 ∧
    4000 < pdMS_TO_TICKS 1000 5000 ∧
    (vSensorTask_cycle 1000 sensor_at_40 4095 4095 9000).sensor_data.water_level = 100 ∧
    (vSensorTask_cycle 1000 sensor_at_40 4095 4095 9000).sensor_data.water_rate
        = sensor_at_40.sensor_data.water_rate ∧
    (vSensorTask_cycle 1000 sensor_at_40 4095 4095 9000).sensor_data.rain_rate
        = sensor_at_40.sensor_data.rain_rate ∧
    (vSensorTask_cycle 1000 sensor_at_40 4095 4095 9000).sensor_data.trend_worsening
        = sensor_at_40.sensor_data.trend_worsening ∧
    (vSensorTask_cycle 1000 sensor_at_40 4095 4095 9000).sensor_data.timestamp
        = sensor_at_40.sensor_data.timestamp ∧
    (vSensorTask_cycle 1000 sensor_at_40 4095 4095 9000).prev_water = sensor_at_40.prev_water ∧
    (vSensorTask_cycle 1000 sensor_at_40 4095 4095 9000).prev_rain = sensor_at_40.prev_rain :=
  ⟨by decide, by decide, by decide,
    rates_carried_forward 1000 sensor_at_40 4095 4095 9000 (by decide)⟩

/-! ### C7: the trend flag -/

theorem trendAgrees_cycle (hz : Nat) (ss : SensorState) (raw_water raw_rain now : Nat)
    (h : TrendAgrees ss.sensor_data) :
    TrendAgrees (vSensorTask_cycle hz ss raw_water raw_rain now).sensor_data := by
  unfold TrendAgrees at h ⊢
  by_cases he : tickDiff now ss.sensor_data.timestamp ≥ pdMS_TO_TICKS hz 5000
  · obtain ⟨_, _, ht, _⟩ := sensor_cycle_recompute hz ss raw_water raw_rain now he
    rw [ht]
    simp only [Bool.or_eq_true, decide_eq_true_eq]
  · obtain ⟨hw, hr, ht, _⟩ := sensor_cycle_carry hz ss raw_water raw_rain now (not_le.mp he)
    rw [hw, hr, ht]
    exact h

theorem trendAgrees_run (hz : Nat) (inputs : List (Nat × Nat × Nat)) :
    ∀ ss : SensorState, TrendAgrees ss.sensor_data →
      ∀ st ∈ vSensorTask_run hz ss inputs, TrendAgrees st.sensor_data := by
  induction inputs with
  | nil => intro ss _ st hst; simp [vSensorTask_run] at hst
  | cons x rest ih =>
    obtain ⟨rw, rr, t⟩ := x
    intro ss hss st hst
    simp only [vSensorTask_run, List.mem_cons] at hst
    rcases hst with rfl | hst
    · exact trendAgrees_cycle hz ss rw rr t hss
    · exact ih _ (trendAgrees_cycle hz ss rw rr t hss) st hst

/-- C7. Every reading published by `vSensorTask`, from its initial state (rates 0,
trend false, started at any tick `t0`) and for every sequence of samples and tick
times, has `trend_worsening = true` iff `water_rate > 2.0` or `rain_rate > 3.0`, the
rates being those stored in that same reading. -/
theorem trend_flag_invariant (hz t0 : Nat) (inputs : List (Nat × Nat × Nat))
    (st : SensorState) (hst : st ∈ vSensorTask_run hz (vSensorTask_init t0) inputs) :
    st.sensor_data.trend_worsening = true ↔
      (st.sensor_data.water_rate > 2 ∨ st.sensor_data.rain_rate > 3) := by
  have h0 : TrendAgrees (vSensorTask_init t0).sensor_data := by
    unfold TrendAgrees vSensorTask_init
    norm_num
  exact trendAgrees_run hz inputs (vSensorTask_init t0) h0 st hst

theorem trend_flag_invariant_witness :
    (vSensorTask_cycle 1000 sensor_at_40 2048 0 10000) ∈
        vSensorTask_run 1000 (vSensorTask_init 0) [(1638, 0, 5000), (2048, 0, 10000)] ∧
    ((vSensorTask_cycle 1000 sensor_at_40 2048 0 10000).sensor_data.trend_worsening = true ↔
      ((vSensorTask_cycle 1000 sensor_at_40 2048 0 10000).sensor_data.water_rate > 2 ∨
        (vSensorTask_cycle 1000 sensor_at_40 2048 0 10000).sensor_data.rain_rate > 3)) :=
  ⟨List.mem_cons_of_mem _ (List.mem_cons_self _ _),
    trend_flag_invariant 1000 0 [(1638, 0, 5000), (2048, 0, 10000)]
      (vSensorTask_cycle 1000 sensor_at_40 2048 0 10000)
      (List.mem_cons_of_mem _ (List.mem_cons_self _ _))⟩

/-! ### Queues -/

theorem xQueueSend_capacity {α : Type} (q : Queue α) (x : α) :
    (xQueueSend q x).1.capacity = q.capacity := by
  unfold xQueueSend; split <;> rfl

theorem xQueueSend_items {α : Type} (q : Queue α) (x : α) (h : q.items.length ≤ q.capacity) :
    (xQueueSend q x).1.items = (q.items ++ [x]).take q.capacity := by
  unfold xQueueSend
  split
  · rename_i hlt
    rw [List.take_of_length_le]
    simp only [List.length_append, List.length_singleton]
    omega
  · rename_i hge
    have hlen : q.items.length = q.capacity := by omega
    exact (List.take_left' hlen).symm

/-- Sends with no receive in between keep the oldest items that fit. -/
theorem sendAll_items {α : Type} (xs : List α) :
    ∀ q : Queue α, q.items.length ≤ q.capacity →
      (sendAll q xs).capacity = q.capacity ∧
        (sendAll q xs).items = (q.items ++ xs).take q.capacity := by
  induction xs with
  | nil =>
    intro q h
    refine ⟨rfl, ?_⟩
    simp only [sendAll, List.append_nil]
    exact (List.take_of_length_le h).symm
  | cons x rest ih =>
    intro q h
    have hi := xQueueSend_items q x h
    have hc := xQueueSend_capacity q x
    have hle : (xQueueSend q x).1.items.length ≤ (xQueueSend q x).1.capacity := by
      rw [hi, hc, List.length_take]; exact Nat.min_le_left _ _
    obtain ⟨h1, h2⟩ := ih (xQueueSend q x).1 hle
    simp only [sendAll]
    refine ⟨h1.trans hc, ?_⟩
    rw [h2, hi, hc]
    by_cases hlt : q.items.length < q.capacity
    · rw [List.take_of_length_le (l := q.items ++ [x])
        (by simp only [List.length_append, List.length_singleton]; omega)]
      simp
    · have hlen : q.items.length = q.capacity := by omega
      have e : ∀ ys : List α, List.take q.capacity (q.items ++ ys) = q.items :=
        fun ys => List.take_left' hlen
      rw [e [x], e rest, e (x :: rest)]

theorem receiveN_eq_take {α : Type} (n : Nat) :
    ∀ q : Queue α, receiveN q n = q.items.take n := by
  induction n with
  | zero => intro q; simp [receiveN]
  | succ k ih =>
    intro q
    obtain ⟨cap, items⟩ := q
    cases items with
    | nil => simp [receiveN, xQueueReceive]
    | cons x rest => simp [receiveN, xQueueReceive, ih]

/-! ### C8: one queue, three receivers -/

theorem bus_receive_total (b : DirectiveBus) (c : Consumer) :
    (b.receive c).total = b.total := by
  obtain ⟨⟨cap, items⟩, received⟩ := b
  cases items with
  | nil => rfl
  | cons d rest =>
    cases c <;>
      simp [DirectiveBus.receive, DirectiveBus.total, xQueueReceive] <;> omega

/-- C8, on the code. A directive with every flag set is sent to the empty
`xQueueAlertControl`; the Indicator task receives it; the receives the Matrix and the
Audible task then perform deliver nothing, so neither ever receives that directive.
In general a receive by any consumer conserves the number of directives received by
the three consumers plus those queued: each directive reaches one consumer only. -/
theorem directive_reaches_one_consumer :
    ((((DirectiveBus.init.send critical_directive).receive Consumer.Indicator).receive
        Consumer.Matrix).receive Consumer.Audible).received Consumer.Indicator
      = [critical_directive] ∧
    ((((DirectiveBus.init.send critical_directive).receive Consumer.Indicator).receive
        Consumer.Matrix).receive Consumer.Audible).received Consumer.Matrix = [] ∧
    ((((DirectiveBus.init.send critical_directive).receive Consumer.Indicator).receive
        Consumer.Matrix).receive Consumer.Audible).received Consumer.Audible = [] ∧
    ((((DirectiveBus.init.send critical_directive).receive Consumer.Indicator).receive
        Consumer.Matrix).receive Consumer.Audible).queue.items = [] ∧
    (∀ (b : DirectiveBus) (c : Consumer), (b.receive c).total = b.total) :=
  ⟨by decide, by decide, by decide, by decide, bus_receive_total⟩

/-! ### C9: the sensor queue when it is full -/

/-- C9, as amended. On a sensor queue of capacity 5, if `vSensorTask` performs more than
5 sends (each with zero wait) while `vProcessingTask` performs no receive, then the queue
never holds more than 5 items, every send returns at once (a send to the full queue
returns failure and leaves the queue as it was), and the readings subsequently delivered
are the 5 oldest unread ones, in order; the most recent readings, sent while the queue
was full, are the ones lost. -/
theorem sensor_queue_keeps_oldest (q : Queue sensor_data_t) (xs : List sensor_data_t)
    (hcap : q.capacity = 5) (hq : q.items.length ≤ 5) (hxs : xs.length > 5) :
    (∀ ys : List sensor_data_t, ys <+: xs → (sendAll q ys).items.length ≤ 5) ∧
    (sendAll q xs).items = (q.items ++ xs).take 5 ∧
    (∀ x : sensor_data_t, xQueueSend (sendAll q xs) x = (sendAll q xs, false)) ∧
    (∀ n : Nat, receiveN (sendAll q xs) n = ((q.items ++ xs).take 5).take n) := by
  have hq1 : q.items.length ≤ q.capacity := by rw [hcap]; exact hq
  have hall := fun ys => sendAll_items ys q hq1
  rw [hcap] at hall
  refine ⟨?_, (hall xs).2, ?_, ?_⟩
  · intro ys _
    rw [(hall ys).2, List.length_take]
    exact Nat.min_le_left _ _
  · intro x
    have hlen : (sendAll q xs).items.length = 5 := by
      rw [(hall xs).2, List.length_take, List.length_append]
      omega
    unfold xQueueSend
    rw [if_neg (by rw [hlen, (hall xs).1]; exact Nat.lt_irrefl 5)]
  · intro n
    rw [receiveN_eq_take, (hall xs).2]

theorem sensor_queue_keeps_oldest_witness :
    xQueueSensorData.capacity = 5 ∧ six_readings.length > 5 ∧
    (sendAll xQueueSensorData six_readings).items = six_readings.take 5 ∧
    receiveN (sendAll xQueueSensorData six_readings) 6 = six_readings.take 5 :=
  ⟨rfl, by decide,
    (sensor_queue_keeps_oldest xQueueSensorData six_readings rfl (by decide) (by decide)).2.1,
    (sensor_queue_keeps_oldest xQueueSensorData six_readings rfl (by decide) (by decide)).2.2.2 6⟩

/-- C9, as stated, fails: after six sends to the empty sensor queue with no receive, the
readings delivered are the five oldest; the most recent one is lost and the oldest one
is delivered first. -/
theorem sensor_queue_loses_newest :
    receiveN (sendAll xQueueSensorData six_readings) 6 =
      [reading_of 1 0, reading_of 2 0, reading_of 3 0, reading_of 4 0, reading_of 5 0] ∧
    reading_of 6 0 ∉ receiveN (sendAll xQueueSensorData six_readings) 6 ∧
    reading_of 1 0 ∈ receiveN (sendAll xQueueSensorData six_readings) 6 := by
  have h : receiveN (sendAll xQueueSensorData six_readings) 6 =
      [reading_of 1 0, reading_of 2 0, reading_of 3 0, reading_of 4 0, reading_of 5 0] := rfl
  refine ⟨h, ?_, ?_⟩
  · rw [h]
    simp [reading_of]
  · rw [h]
    exact List.mem_cons_self _ _

/-! ### C10: the indicator colour -/

theorem set_rgb_levels (pwm : PwmState) (red green blue : Nat) :
    rgb_levels (set_rgb pwm red green blue) = (pin_level pwm LED_RED, u16 green, u16 blue) := by
  simp [rgb_levels, set_rgb, pin_level, pwm_set_chan_level, pwm_gpio_to_slice_num, chan_of_pin,
    LED_RED, LED_GREEN, LED_BLUE, PWM_CHAN_A, PWM_CHAN_B]

/-- C10, on the code. From the reset PWM levels (all 0), `update_rgb_led(WARNING_MODE,
false)` leaves the intensities at (red, green, blue) = (0, 255, 0), not (255, 255, 0);
and `update_rgb_led(NORMAL_MODE, false)` on levels all 255 leaves red at 255. In
general `update_rgb_led` never changes the level of the red pin (GPIO 13, channel B of
slice 6): it writes the red value to channel A of that slice, which is the blue pin,
and then overwrites it with the blue value. -/
theorem update_rgb_led_misses_red :
    rgb_levels (update_rgb_led (pwm_all 0) WARNING_MODE false) = (0, 255, 0) ∧
    rgb_levels (update_rgb_led (pwm_all 255) NORMAL_MODE false) = (255, 255, 0) ∧
    (∀ (pwm : PwmState) (mode : SystemMode) (trend_worsening : Bool),
      pin_level (update_rgb_led pwm mode trend_worsening) LED_RED = pin_level pwm LED_RED) := by
  refine ⟨by decide, by decide, ?_⟩
  intro pwm mode trend_worsening
  have h : ∀ r g b : Nat, pin_level (set_rgb pwm r g b) LED_RED = pin_level pwm LED_RED :=
    fun r g b => congrArg Prod.fst (set_rgb_levels pwm r g b)
  cases mode <;> cases trend_worsening <;> exact h _ _ _

/-! ### C11: the update decision of the matrix task -/

theorem matrix_cycle_decision (st : MatrixState) (received : Option alert_control_t)
    (lsd : sensor_data_t) :
    (vMatrixLedTask_cycle st received lsd).update_needed =
        (vMatrixLedTask_receive st received).update_needed ∧
      (vMatrixLedTask_cycle st received lsd).state.last_displayed_mode =
        (vMatrixLedTask_receive st received).last_displayed_mode := ⟨rfl, rfl⟩

/-- C11, as amended. In every cycle of `vMatrixLedTask`, for every state and whether or
not a directive is received, an update is marked as needed if and only if a directive is
received and its mode differs from `last_displayed_mode`, or its `update_matrix` flag is
set, or `force_update` is set. Whenever an update is marked, `last_displayed_mode`
becomes the received directive's mode and `force_update` is cleared by the receive
block; when none is marked, the receive block leaves both unchanged. -/
theorem matrix_update_decision (st : MatrixState) (received : Option alert_control_t)
    (lsd : sensor_data_t) :
    ((vMatrixLedTask_cycle st received lsd).update_needed = true ↔
      ∃ d : alert_control_t, received = some d ∧
        (d.mode ≠ st.last_displayed_mode ∨ d.update_matrix = true ∨ st.force_update = true)) ∧
    (∀ d : alert_control_t, received = some d →
      (vMatrixLedTask_cycle st received lsd).update_needed = true →
        (vMatrixLedTask_cycle st received lsd).state.last_displayed_mode = d.mode ∧
        (vMatrixLedTask_receive st received).force_update = false) ∧
    ((vMatrixLedTask_cycle st received lsd).update_needed = false →
      (vMatrixLedTask_cycle st received lsd).state.last_displayed_mode
          = st.last_displayed_mode ∧
        (vMatrixLedTask_receive st received).force_update = st.force_update) := by
  obtain ⟨hu, hm⟩ := matrix_cycle_decision st received lsd
  rw [hu, hm]
  cases received with
  | none => simp [vMatrixLedTask_receive]
  | some d =>
    by_cases hc : d.mode ≠ st.last_displayed_mode ∨ d.update_matrix = true ∨
        st.force_update = true
    · have hr : vMatrixLedTask_receive st (some d) =
          { update_needed := true, last_displayed_mode := d.mode, force_update := false } := by
        simp only [vMatrixLedTask_receive, if_pos hc]
      rw [hr]
      refine ⟨⟨fun _ => ⟨d, rfl, hc⟩, fun _ => rfl⟩, ?_, ?_⟩
      · intro d1 h1 _
        cases h1
        exact ⟨rfl, rfl⟩
      · intro h; cases h
    · have hr : vMatrixLedTask_receive st (some d) =
          { update_needed := false, last_displayed_mode := st.last_displayed_mode,
            force_update := st.force_update } := by
        simp only [vMatrixLedTask_receive, if_neg hc]
      rw [hr]
      refine ⟨⟨(fun h => by cases h), ?_⟩, ?_, fun _ => ⟨rfl, rfl⟩⟩
      · rintro ⟨d1, h1, h2⟩
        cases h1
        exact absurd h2 hc
      · intro d1 _ h; cases h

theorem matrix_update_decision_witness :
    (vMatrixLedTask_cycle vMatrixLedTask_init (some critical_directive)
        (reading_of 90 0)).update_needed = true ∧
    (vMatrixLedTask_cycle vMatrixLedTask_init (some critical_directive)
        (reading_of 90 0)).state.last_displayed_mode = CRITICAL_MODE ∧
    (vMatrixLedTask_receive vMatrixLedTask_init (some critical_directive)).force_update
        = false :=
  ⟨by decide,
    (matrix_update_decision vMatrixLedTask_init (some critical_directive)
      (reading_of 90 0)).2.1 critical_directive rfl (by decide)⟩

/-- C11, as stated, fails: in the initial state of the task `force_update` is set, yet a
cycle that receives no directive marks no update (and leaves `force_update` set). -/
theorem matrix_force_update_needs_directive :
    vMatrixLedTask_init.force_update = true ∧
    (vMatrixLedTask_cycle vMatrixLedTask_init none (reading_of 0 0)).update_needed = false ∧
    (vMatrixLedTask_cycle vMatrixLedTask_init none (reading_of 0 0)).state.force_update
      = true ∧
    ¬ ((vMatrixLedTask_cycle vMatrixLedTask_init none (reading_of 0 0)).update_needed = true ↔
        ((∃ d : alert_control_t, (none : Option alert_control_t) = some d ∧
            (d.mode ≠ vMatrixLedTask_init.last_displayed_mode ∨ d.update_matrix = true)) ∨
          vMatrixLedTask_init.force_update = true)) := by
  refine ⟨rfl, by decide, by decide, ?_⟩
  intro h
  have h1 := h.mpr (Or.inr rfl)
  exact absurd h1 (by decide)

/-! ### C12: a receive timeout -/

/-- C12. An iteration of `vProcessingTask` whose receive from the sensor queue times out
(the queue is empty and stays so during the wait) leaves `last_sensor_data`, `last_mode`,
`last_alert_time` and `display_update_counter` unchanged and sends nothing to the
display queue or the directive queue. -/
theorem receive_timeout_noop (hz : Nat) (sys : ProcSystem) (current_time : Nat)
    (h : sys.sensorQueue.items = []) :
    (vProcessingTask_iteration hz sys current_time).state.last_sensor_data
        = sys.state.last_sensor_data ∧
    (vProcessingTask_iteration hz sys current_time).state.last_mode = sys.state.last_mode ∧
    (vProcessingTask_iteration hz sys current_time).state.last_alert_time
        = sys.state.last_alert_time ∧
    (vProcessingTask_iteration hz sys current_time).state.display_update_counter
        = sys.state.display_update_counter ∧
    (vProcessingTask_iteration hz sys current_time).displayQueue.items
        = sys.displayQueue.items ∧
    (vProcessingTask_iteration hz sys current_time).alertQueue.items = sys.alertQueue.items ∧
    (vProcessingTask_iteration hz sys current_time).sensorQueue.items = [] := by
  have hr : xQueueReceive sys.sensorQueue = (sys.sensorQueue, none) := by
    unfold xQueueReceive
    rw [h]
  unfold vProcessingTask_iteration
  rw [hr]
  exact ⟨rfl, rfl, rfl, rfl, rfl, rfl, h⟩

theorem receive_timeout_noop_witness :
    proc_system_idle.sensorQueue.items = [] ∧
    (vProcessingTask_iteration 1000 proc_system_idle 7000).state = proc_alerted ∧
    (vProcessingTask_iteration 1000 proc_system_idle 7000).displayQueue.items
        = [reading_of 75 0] ∧
    (vProcessingTask_iteration 1000 proc_system_idle 7000).alertQueue.items
        = [critical_directive] :=
  ⟨rfl, rfl,
    (receive_timeout_noop 1000 proc_system_idle 7000 rfl).2.2.2.2.1,
    (receive_timeout_noop 1000 proc_system_idle 7000 rfl).2.2.2.2.2.1⟩

/-! ### C13: tone durations and repeat intervals -/

/-- The loop of line 602 leaves by its own condition: any fuel from 17 on gives the same
calls as the fuel used in `play_alert_sound`. -/
theorem sweep_up_fuel (k : Nat) : sweep_up (k + 17) 500 = sweep_up 64 500 := by
  simp [sweep_up]

/-- The loop of line 611 leaves by its own condition: any fuel from 17 on gives the same
calls as the fuel used in `play_alert_sound`. -/
theorem sweep_down_fuel (k : Nat) : sweep_down (k + 17) 2000 = sweep_down 64 2000 := by
  simp [sweep_down]

set_option maxRecDepth 8000

/-- C13, as amended. For Warning and Alert and every trend flag, the total blocking
duration of `play_alert_sound` (the sum of its delays) is strictly less than the repeat
interval of the mode: 200 ms against 10000 ms for Warning; 800 ms, or 1600 ms with the
trend worsening, against 5000 ms for Alert. For Critical the siren blocks for 4800 ms,
against a repeat interval of 2000 ms. -/
theorem alert_tone_durations (trend_worsening : Bool) :
    blocking_ms (play_alert_sound WARNING_MODE trend_worsening) = 200 ∧
    blocking_ms (play_alert_sound WARNING_MODE trend_worsening)
        < sound_interval_ms WARNING_MODE ∧
    blocking_ms (play_alert_sound ALERT_MODE trend_worsening)
        = (if trend_worsening then 1600 else 800) ∧
    blocking_ms (play_alert_sound ALERT_MODE trend_worsening) < sound_interval_ms ALERT_MODE ∧
    blocking_ms (play_alert_sound CRITICAL_MODE trend_worsening) = 4800 ∧
    sound_interval_ms WARNING_MODE = 10000 ∧ sound_interval_ms ALERT_MODE = 5000 ∧
    sound_interval_ms CRITICAL_MODE = 2000 := by
  cases trend_worsening <;> decide

/-- C13, as stated, fails for Critical: the siren of `play_alert_sound(CRITICAL_MODE, _)`
blocks for 4800 ms, which is not less than the 2000 ms repeat interval. -/
theorem critical_siren_exceeds_interval :
    blocking_ms (play_alert_sound CRITICAL_MODE false) = 4800 ∧
    sound_interval_ms CRITICAL_MODE = 2000 ∧
    ¬ (blocking_ms (play_alert_sound CRITICAL_MODE false) < sound_interval_ms CRITICAL_MODE) := by
  decide

/-! ### C14: the divisor of the rate computation -/

theorem time_diff_ge (now ts : Nat) (h : 5000 ≤ tickDiff now ts) :
    (1 / 12 : ℚ) ≤ time_diff now ts := by
  unfold time_diff
  have h1 : (5000 : ℚ) ≤ (tickDiff now ts : ℚ) := by exact_mod_cast h
  linarith

/-- C14. With one tick equal to one millisecond, every sampling cycle either carries the
rates forward without dividing (fewer than 5000 ticks elapsed), or recomputes
`water_rate` and `rain_rate` as a level difference divided by `time_diff`, and then the
elapsed tick count is at least 5000 and `time_diff` at least 1/12 minute. The elapsed
count is the difference of the tick values modulo `2^32`, so this holds for every pair
of tick values, across wrap-around too (from tick `2^32 - 1000` to tick 4000 it is 5000). -/
theorem rate_divisor_at_least_window (ss : SensorState) (raw_water raw_rain now : Nat) :
    ((tickDiff now ss.sensor_data.timestamp < 5000 ∧
        (vSensorTask_cycle 1000 ss raw_water raw_rain now).sensor_data.water_rate
          = ss.sensor_data.water_rate ∧
        (vSensorTask_cycle 1000 ss raw_water raw_rain now).sensor_data.rain_rate
          = ss.sensor_data.rain_rate) ∨
      (5000 ≤ tickDiff now ss.sensor_data.timestamp ∧
        (1 / 12 : ℚ) ≤ time_diff now ss.sensor_data.timestamp ∧
        (vSensorTask_cycle 1000 ss raw_water raw_rain now).sensor_data.water_rate =
          ((((vSensorTask_cycle 1000 ss raw_water raw_rain now).sensor_data.water_level : Int)
            - (ss.prev_water : Int) : Int) : ℚ) / time_diff now ss.sensor_data.timestamp ∧
        (vSensorTask_cycle 1000 ss raw_water raw_rain now).sensor_data.rain_rate =
          ((((vSensorTask_cycle 1000 ss raw_water raw_rain now).sensor_data.rain_volume : Int)
            - (ss.prev_rain : Int) : Int) : ℚ) / time_diff now ss.sensor_data.timestamp)) ∧
    tickDiff 4000 4294966296 = 5000 ∧ time_diff 4000 4294966296 = 1 / 12 := by
  refine ⟨?_, by decide, ?_⟩
  · by_cases h : tickDiff now ss.sensor_data.timestamp < 5000
    · left
      have hc := sensor_cycle_carry 1000 ss raw_water raw_rain now
        (by rw [pdMS_TO_TICKS_1000_5000]; exact h)
      exact ⟨h, hc.1, hc.2.1⟩
    · right
      have h5 : 5000 ≤ tickDiff now ss.sensor_data.timestamp := not_lt.mp h
      have hr := sensor_cycle_recompute 1000 ss raw_water raw_rain now
        (by rw [pdMS_TO_TICKS_1000_5000]; exact h5)
      exact ⟨h5, time_diff_ge _ _ h5, hr.1, hr.2.1⟩
  · have h : tickDiff 4000 4294966296 = 5000 := by decide
    rw [time_diff, h]
    norm_num

end HydroAlert
